import Mathlib

/-!
# Verification of the stockNesMonitor daily digest pipeline

A shallow embedding, in Lean 4, of the parts of the repository that the
frozen claims C1-C10 are about:

* `src/modules/report_builder.py` — markdown conversion, trend badge and
  trend class extraction, change classification, and the data-preparation
  part of `build_html_report` (the arguments handed to `Template.render`);
* `src/modules/news_fetcher.py` — `fetch_from_finnhub`,
  `fetch_from_yfinance`, `get_stock_info`, `fetch_news` and the recency
  filter `_is_within_days`;
* `src/modules/ai_summarizer.py` — `summarize_stock_news` with its
  retry / model-fallback loop, `_format_error`, `_build_prompt`,
  `_build_news_list_text`;
* the step-3 summary collection loop of `src/main.py` (`run_digest`).

Python strings are modelled as Lean `String`s, but every string operation
is re-implemented over `List Char` (`pyContains`, `pyReplace`, …) so that
all definitions reduce inside the kernel; Python floats are modelled as
`ℚ` (the claims under test only concern exact comparisons against 0 and
2-decimal rounding); Python dicts are modelled as insertion-ordered
association lists with last-write-wins update (`dinsert`), matching
CPython's ordered-dict semantics; fallible network calls are modelled as
`Except`/oracle-valued inputs, so that the embedded functions are total
exactly where the Python code catches every exception.
-/

/-! ## Python string primitives over `List Char` -/

/-- Python `sub in s` on lists of characters: `p` occurs contiguously in the list. -/
def subList (p : List Char) : List Char → Bool
  | [] => p.isEmpty
  | c :: rest => (p.isPrefixOf (c :: rest)) || subList p rest

/-- Python `pat in s` for strings (contiguous substring test). -/
def pyContains (s pat : String) : Bool := subList pat.data s.data

/-- Python whitespace for `str.strip()` (default argument). -/
def pyIsSpace (c : Char) : Bool :=
  c = ' ' || c = '\t' || c = '\n' || c = '\r' || c = '\x0b' || c = '\x0c'

/-- Python `str.strip()`: drop whitespace from both ends. -/
def pyStrip (s : String) : String :=
  ⟨((s.data.dropWhile pyIsSpace).reverse.dropWhile pyIsSpace).reverse⟩

/-- Python `str.lower()` (ASCII range; the keyword scans only use ASCII keywords). -/
def pyLower (s : String) : String := ⟨s.data.map Char.toLower⟩

/-- Python `str.upper()` (ASCII range; ticker symbols are ASCII). -/
def pyUpper (s : String) : String := ⟨s.data.map Char.toUpper⟩

/-- Python `s[:n]` (truncation to the first `n` characters). -/
def pyTake (n : Nat) (s : String) : String := ⟨s.data.take n⟩

/-- Python `s[n:]` (drop the first `n` characters). -/
def pyDrop (n : Nat) (s : String) : String := ⟨s.data.drop n⟩

/-- Python `s.startswith(p)`. -/
def pyStartsWith (s p : String) : Bool := p.data.isPrefixOf s.data

/-- One step of `str.replace`: replace the first occurrence of `pat` in `l` by `sub`;
if `pat` does not occur, the list is unchanged. -/
def replaceOnceList (pat sub : List Char) : List Char → List Char
  | [] => []
  | c :: rest =>
    if pat.isPrefixOf (c :: rest) then sub ++ (c :: rest).drop pat.length
    else c :: replaceOnceList pat sub rest

/-- Python `s.replace(pat, sub, 1)`. -/
def pyReplaceOnce (s pat sub : String) : String :=
  ⟨replaceOnceList pat.data sub.data s.data⟩

/-- Fuel-indexed worker for `replaceAllList` (structural recursion on the fuel so
that the kernel can evaluate it; the fuel is the length of the scanned list). -/
def replaceAllAux (pat sub : List Char) : Nat → List Char → List Char
  | _, [] => []
  | 0, l => l
  | fuel + 1, c :: rest =>
    match pat with
    | [] => c :: rest
    | p :: ps =>
      if (p :: ps).isPrefixOf (c :: rest) then
        sub ++ replaceAllAux (p :: ps) sub fuel (rest.drop ps.length)
      else c :: replaceAllAux (p :: ps) sub fuel rest

/-- Replace every (non-overlapping, leftmost-first) occurrence of `pat` by `sub`
(for an empty `pat` the list is returned unchanged; the source only replaces
non-empty patterns). -/
def replaceAllList (pat sub l : List Char) : List Char :=
  replaceAllAux pat sub l.length l

/-- Python `s.replace(pat, sub)` with a non-empty pattern (all patterns used by the
source are non-empty). -/
def pyReplace (s pat sub : String) : String :=
  ⟨replaceAllList pat.data sub.data s.data⟩

/-- Python `s.split(sep)` for a one-character separator (the source only splits
on `"\n"`, `"-"`, `":"`, `" "`). -/
def splitOnCharList (sep : Char) : List Char → List (List Char)
  | [] => [[]]
  | c :: rest =>
    let r := splitOnCharList sep rest
    if c = sep then [] :: r
    else
      match r with
      | [] => [[c]]
      | grp :: grps => (c :: grp) :: grps

/-- Python `s.split(sep)` (one-character separator, no maxsplit). -/
def pySplit (s : String) (sep : Char) : List String :=
  (splitOnCharList sep s.data).map (fun l => ⟨l⟩)

/-- Python `s.split(" ", 1)[1]` for a string known to contain a space:
everything after the first space. -/
def pyAfterFirstSpace (s : String) : String :=
  ⟨(s.data.dropWhile (fun c => c ≠ ' ')).drop 1⟩

/-- Python `"sep".join(parts)`. -/
def pyJoin (sep : String) : List String → String
  | [] => ""
  | [x] => x
  | x :: xs => x ++ sep ++ pyJoin sep xs

/-! ## Python `round(x, 2)` on rationals

CPython's `round` uses round-half-to-even. Modelled exactly on `ℚ`. -/

/-- Round-half-to-even to an integer. -/
def roundHalfEven (q : ℚ) : ℤ :=
  let f := ⌊q⌋
  let r := q - f
  if r < 1/2 then f
  else if 1/2 < r then f + 1
  else if f % 2 = 0 then f else f + 1

/-- Python `round(q, 2)`. -/
def pyRound2 (q : ℚ) : ℚ := (roundHalfEven (q * 100) : ℚ) / 100

/-! ## Python dict (insertion-ordered, last-write-wins) -/

/-- `d[k] = v` on an insertion-ordered association list: an existing key keeps its
position and gets the new value; a new key is appended. This is CPython's dict
assignment semantics. -/
def dinsert {α : Type} (k : String) (v : α) : List (String × α) → List (String × α)
  | [] => [(k, v)]
  | (k2, v2) :: rest => if k2 = k then (k2, v) :: rest else (k2, v2) :: dinsert k v rest

/-- `d.get(k)` / `d[k]`: first (unique) binding of `k`. -/
def dlookup {α : Type} (k : String) : List (String × α) → Option α
  | [] => none
  | (k2, v) :: rest => if k2 = k then some v else dlookup k rest

/-- `list(d.keys())` in insertion order. -/
def dkeys {α : Type} (d : List (String × α)) : List String := d.map Prod.fst

/-! ## `report_builder._markdown_to_html` (src/modules/report_builder.py:311-353) -/

/-- Recognized list markers of the second branch of the line loop:
`line.startswith(("* ", "1. ", "2. ", "3. "))`. -/
def isStarOrNumMarker (line : String) : Bool :=
  pyStartsWith line "* " || pyStartsWith line "1. " ||
    pyStartsWith line "2. " || pyStartsWith line "3. "

/-- The line-processing loop of `_markdown_to_html` (report_builder.py:326-352):
walks the lines with an `in_list` flag, emitting `<ul>`/`</ul>`/`<li>`/`<p>`
elements into `result_lines`. -/
def processLines : List String → Bool → List String
  | [], inList => if inList then ["</ul>"] else []
  | l :: rest, inList =>
    let line := pyStrip l
    if pyStartsWith line "- " then
      (if inList then [] else ["<ul>"]) ++
        ("<li>" ++ pyDrop 2 line ++ "</li>") :: processLines rest true
    else if isStarOrNumMarker line then
      let content := if pyContains line " " then pyAfterFirstSpace line else line
      (if inList then [] else ["<ul>"]) ++
        ("<li>" ++ content ++ "</li>") :: processLines rest true
    else
      (if inList then ["</ul>"] else []) ++
        (if line ≠ "" then ["<p>" ++ line ++ "</p>"] else []) ++ processLines rest false

/-- `_markdown_to_html` (report_builder.py:311-353): `"### "` → `"<h3>"` everywhere,
the first `"\n"` of the whole text → `"</h3>\n"`, the first two `"**"` pairs →
`<strong>`/`</strong>`, then the line loop, joined with `"\n"`. -/
def _markdown_to_html (markdown_text : String) : String :=
  if markdown_text = "" then ""
  else
    let html := pyReplace markdown_text "### " "<h3>"
    let html := pyReplaceOnce html "\n" "</h3>\n"
    let html := pyReplaceOnce (pyReplaceOnce html "**" "<strong>") "**" "</strong>"
    let html := pyReplaceOnce (pyReplaceOnce html "**" "<strong>") "**" "</strong>"
    pyJoin "\n" (processLines (pySplit html '\n') false)

/-! ## Trend badge / class / change class (report_builder.py:356-405) -/

/-- `_get_change_class` (report_builder.py:356-362). -/
def _get_change_class (change_percent : ℚ) : String :=
  if 0 < change_percent then "positive"
  else if change_percent < 0 then "negative"
  else "neutral"

/-- `_extract_trend_badge` (report_builder.py:365-388): Chinese keyword groups
first (bullish, bearish, neutral), then English groups on the lowered text. -/
def _extract_trend_badge (prediction_text : String) : Option String :=
  if prediction_text = "" then none
  else
    let text_lower := pyLower prediction_text
    if pyContains prediction_text "看涨" || pyContains prediction_text "📈" then some "看涨 📈"
    else if pyContains prediction_text "看跌" || pyContains prediction_text "📉" then some "看跌 📉"
    else if pyContains prediction_text "中立" || pyContains prediction_text "➡️" then some "中立 ➡️"
    else if pyContains text_lower "bullish" then some "Bullish 📈"
    else if pyContains text_lower "bearish" then some "Bearish 📉"
    else if pyContains text_lower "neutral" then some "Neutral ➡️"
    else none

/-- `_extract_trend_class` (report_builder.py:391-405): one combined
(Chinese ∪ English ∪ emoji) keyword group per CSS class, checked
bullish, bearish, neutral in that order. -/
def _extract_trend_class (prediction_text : String) : Option String :=
  if prediction_text = "" then none
  else
    let text_lower := pyLower prediction_text
    if pyContains prediction_text "看涨" || pyContains text_lower "bullish" ||
        pyContains prediction_text "📈" then some "trend-bullish"
    else if pyContains prediction_text "看跌" || pyContains text_lower "bearish" ||
        pyContains prediction_text "📉" then some "trend-bearish"
    else if pyContains prediction_text "中立" || pyContains text_lower "neutral" ||
        pyContains prediction_text "➡️" then some "trend-neutral"
    else none

/-- The bullish keyword set of the two extractors, as one predicate
(`看涨` / lowercase `bullish` / `📈`). -/
def bullishKw (t : String) : Bool :=
  pyContains t "看涨" || pyContains (pyLower t) "bullish" || pyContains t "📈"

/-- The bearish keyword set (`看跌` / lowercase `bearish` / `📉`). -/
def bearishKw (t : String) : Bool :=
  pyContains t "看跌" || pyContains (pyLower t) "bearish" || pyContains t "📉"

/-- The neutral keyword set (`中立` / lowercase `neutral` / `➡️`). -/
def neutralKw (t : String) : Bool :=
  pyContains t "中立" || pyContains (pyLower t) "neutral" || pyContains t "➡️"

/-! ## Python `datetime` (wall-clock instants and `strftime` formatting)

`build_html_report` reads `datetime.now()` once; the embedding passes that
instant in explicitly as a `PyDateTime`. `weekday` is Python's
`datetime.weekday()` (Monday = 0). -/

structure PyDateTime where
  year : Nat
  month : Nat
  day : Nat
  hour : Nat
  minute : Nat
  second : Nat
  weekday : Fin 7
deriving DecidableEq

/-- Zero-padded 2-digit decimal (strftime `%m`, `%d`, `%H`, `%M`, `%S`). -/
def pad2 (n : Nat) : String := if n < 10 then "0" ++ Nat.repr n else Nat.repr n

/-- Zero-padded 4-digit decimal (strftime `%Y` for years below 10000). -/
def pad4 (n : Nat) : String :=
  if n < 10 then "000" ++ Nat.repr n
  else if n < 100 then "00" ++ Nat.repr n
  else if n < 1000 then "0" ++ Nat.repr n
  else Nat.repr n

/-- The `weekdays` list of the Chinese branch of `build_html_report`
(report_builder.py:432). -/
def weekdaysZh : List String := ["一", "二", "三", "四", "五", "六", "日"]

/-- The `weekdays` list of the English branch (report_builder.py:436). -/
def weekdaysEn : List String :=
  ["Monday", "Tuesday", "Wednesday", "Thursday", "Friday", "Saturday", "Sunday"]

/-- strftime `%B`: full English month name (index `month - 1`; out-of-range months
render as an empty name, an impossible state for a real `datetime`). -/
def monthNameEn (m : Nat) : String :=
  (["January", "February", "March", "April", "May", "June", "July", "August",
    "September", "October", "November", "December"].getD (m - 1) "")

/-- The formatted header date of `build_html_report` (report_builder.py:431-437):
`now.strftime("%Y年%m月%d日（星期X）")` for `zh`, `now.strftime("%B %d, %Y (Weekday)")`
otherwise. -/
def report_date_str (language : String) (now : PyDateTime) : String :=
  if language = "zh" then
    pad4 now.year ++ "年" ++ pad2 now.month ++ "月" ++ pad2 now.day ++ "日（星期" ++
      (weekdaysZh.getD now.weekday "") ++ "）"
  else
    monthNameEn now.month ++ " " ++ pad2 now.day ++ ", " ++ pad4 now.year ++ " (" ++
      (weekdaysEn.getD now.weekday "") ++ ")"

/-- The footer generation timestamp of `build_html_report` (report_builder.py:480):
`now.strftime("%Y-%m-%d %H:%M:%S")`. -/
def report_generation_time (now : PyDateTime) : String :=
  pad4 now.year ++ "-" ++ pad2 now.month ++ "-" ++ pad2 now.day ++ " " ++
    pad2 now.hour ++ ":" ++ pad2 now.minute ++ ":" ++ pad2 now.second

/-! ## News items (the per-item dicts built by the two fetchers)

Fields are `Option String`: a missing dict key is `none`, a present-but-empty
value is `some ""` — Python's `d.get(k, default)` only falls back on a missing
key, while `if d.get(k):` is also false on an empty value. -/

structure NewsItem where
  title : Option String
  source : Option String
  published_at : Option String
  summary : Option String
  url : Option String
deriving DecidableEq

/-! ## `build_html_report` (src/modules/report_builder.py:408-483)

The function renders `EMAIL_TEMPLATE` (a fixed Jinja2 template) over the
values prepared below. `Template.render` is a pure function of the template
constant and these values, so the HTML document is byte-identical exactly when
the prepared `RenderInput` structures are equal; the embedding stops at that
structure (the template's CSS/layout text carries no further behavior). -/

/-- The per-symbol dict appended to `stocks` (report_builder.py:455-468). -/
structure StockCard where
  symbol : String
  company_name : String
  change_percent : ℚ
  change_class : String
  summary_html : String
  summary : String
  news_links : List (String × String)
  news_count : Nat
  prediction : Option String
  prediction_html : Option String
  trend_badge : Option String
  trend_class : Option String
deriving DecidableEq

/-- The keyword arguments handed to `template.render(...)`
(report_builder.py:474-481). -/
structure RenderInput where
  title : String
  date_str : String
  symbols_str : String
  stocks : List StockCard
  generation_time : String
deriving DecidableEq

/-- The two fields of a `stock_info` entry that `build_html_report` reads
(`info.get("company_name", symbol)`, `info.get("change_percent", 0)`);
`none` models a missing key. -/
structure InfoEntry where
  company_name : Option String
  change_percent : Option ℚ
deriving DecidableEq

/-- The news-link dicts collected for one symbol (report_builder.py:447-453):
the first 10 items with a truthy `url`, mapped to `(title-or-default, url)`. -/
def collect_news_links (news_list : List NewsItem) : List (String × String) :=
  ((news_list.take 10).filter (fun n => n.url.getD "" ≠ "")).map
    (fun n => (n.title.getD "查看详情", n.url.getD ""))

/-- One entry of the `stocks` list (report_builder.py:442-468). -/
def build_stock_card (stock_info : List (String × InfoEntry))
    (news_data : List (String × List NewsItem)) (predictions : Option (List (String × String)))
    (summaries : List (String × String)) (symbol : String) : StockCard :=
  let info := (dlookup symbol stock_info).getD ⟨none, none⟩
  let news_list := (dlookup symbol news_data).getD []
  let pred := match predictions with
    | none => none
    | some p => dlookup symbol p
  -- `predictions.get(symbol) if predictions and predictions.get(symbol) else None`:
  -- the guard is also false when the looked-up prediction text is empty.
  let predTruthy : Option String := match pred with
    | some t => if t ≠ "" then some t else none
    | none => none
  { symbol := symbol
    company_name := info.company_name.getD symbol
    change_percent := info.change_percent.getD 0
    change_class := _get_change_class (info.change_percent.getD 0)
    summary_html := _markdown_to_html ((dlookup symbol summaries).getD "")
    summary := (dlookup symbol summaries).getD ""
    news_links := collect_news_links news_list
    news_count := news_list.length
    prediction := pred
    prediction_html := predTruthy.map _markdown_to_html
    trend_badge := predTruthy.bind _extract_trend_badge
    trend_class := predTruthy.bind _extract_trend_class }

/-- `build_html_report` (report_builder.py:408-483) up to the pure
`Template.render` call: the prepared render arguments. `now` is the single
`datetime.now()` read at line 428. -/
def build_html_report (summaries : List (String × String))
    (stock_info : List (String × InfoEntry)) (news_data : List (String × List NewsItem))
    (predictions : Option (List (String × String))) (language : String)
    (now : PyDateTime) : RenderInput :=
  { title := if language = "zh" then "📈 每日股票简报" else "📈 Daily Stock Brief"
    date_str := report_date_str language now
    symbols_str := pyJoin " | " (dkeys summaries)
    stocks := (dkeys summaries).map
      (build_stock_card stock_info news_data predictions summaries)
    generation_time := report_generation_time now }

/-! ## The step-3 summary collection of `run_digest` (src/main.py:103-126)

`run_digest` fills the `summaries` dict with one assignment
`summaries[symbol] = ...` per requested symbol, in request order; the value is
whatever `summarize_stock_news` (or the error placeholder) produced for that
symbol. The value computation is abstracted as a function of the symbol, which
is faithful because every per-symbol input (`news_data.get(symbol, [])`,
config) is itself a function of the symbol. -/

/-- The `summaries` dict after the step-3 loop of `run_digest` (main.py:103-126). -/
def run_digest_summaries (symbols : List String) (summaryOf : String → String) :
    List (String × String) :=
  symbols.foldl (fun d s => dinsert s (summaryOf s) d) []

/-- Specification-side description (for comparison with the code): the requested
symbols with every duplicate after the first occurrence removed, keeping
first-occurrence order. -/
def firstOccurrences (symbols : List String) : List String :=
  symbols.foldl (fun acc s => if s ∈ acc then acc else acc ++ [s]) []

/-! ## Calendar arithmetic (UTC instants as linear time)

`news_fetcher.py` converts epoch timestamps to `"%Y-%m-%d %H:%M"` strings and
parses them back for the recency filter. Instants are modelled as minutes since
the Unix epoch (an integer); the civil-calendar conversions below are the
standard era-based Gregorian algorithms, all in floor division. -/

/-- Civil date (y, m, d) of a day count relative to 1970-01-01 (proleptic
Gregorian). -/
def civilFromDays (z0 : ℤ) : ℤ × ℤ × ℤ :=
  let z := z0 + 719468
  let era := z.ediv 146097
  let doe := z - era * 146097
  let yoe := (doe - doe.ediv 1460 + doe.ediv 36524 - doe.ediv 146096).ediv 365
  let y := yoe + era * 400
  let doy := doe - (365 * yoe + yoe.ediv 4 - yoe.ediv 100)
  let mp := (5 * doy + 2).ediv 153
  let d := doy - (153 * mp + 2).ediv 5 + 1
  let m := mp + (if mp < 10 then 3 else -9)
  (y + (if m ≤ 2 then 1 else 0), m, d)

/-- Day count relative to 1970-01-01 of a civil date (proleptic Gregorian). -/
def daysFromCivil (y0 m d : ℤ) : ℤ :=
  let y := y0 - (if m ≤ 2 then 1 else 0)
  let era := y.ediv 400
  let yoe := y - era * 400
  let doy := (153 * (m + (if 2 < m then -3 else 9)) + 2).ediv 5 + d - 1
  let doe := yoe * 365 + yoe.ediv 4 - yoe.ediv 100 + doy
  era * 146097 + doe - 719468

/-- Zero-padded 2-digit rendering of a (nonnegative) integer. -/
def pad2i (n : ℤ) : String := pad2 n.toNat

/-- `_parse_finnhub_date` (news_fetcher.py:15-18):
`datetime.fromtimestamp(timestamp, tz=pytz.UTC).strftime("%Y-%m-%d %H:%M")`. -/
def _parse_finnhub_date (timestamp : ℤ) : String :=
  let days := timestamp.ediv 86400
  let secs := timestamp.emod 86400
  let ymd := civilFromDays days
  pad4 ymd.1.toNat ++ "-" ++ pad2i ymd.2.1 ++ "-" ++ pad2i ymd.2.2 ++ " " ++
    pad2i (secs.ediv 3600) ++ ":" ++ pad2i ((secs.emod 3600).ediv 60)

/-- Gregorian leap year. -/
def isLeapYear (y : ℤ) : Bool := (y % 4 = 0 && y % 100 ≠ 0) || y % 400 = 0

/-- Days in a month (`datetime.strptime` rejects e.g. February 30). -/
def daysInMonth (y m : ℤ) : ℤ :=
  if m = 2 then (if isLeapYear y then 29 else 28)
  else if m = 4 || m = 6 || m = 9 || m = 11 then 30
  else 31

/-- Digit-string to `Nat` (`none` when empty or not all digits). -/
def parseDigits (l : List Char) : Option Nat :=
  if l = [] || !(l.all Char.isDigit) then none
  else some (l.foldl (fun acc c => acc * 10 + (c.toNat - '0'.toNat)) 0)

/-- `datetime.strptime(s, "%Y-%m-%d %H:%M")`, returned as minutes since the
epoch; `none` models the `ValueError` branch (wrong shape, non-digits,
out-of-range field). `%Y`/`%m`/`%d`/`%H`/`%M` accept at most 4/2/2/2/2
digits. -/
def strptimeYmdHM (s : String) : Option ℤ :=
  match pySplit s ' ' with
  | [datePart, timePart] =>
    (match pySplit datePart '-', pySplit timePart ':' with
    | [ys, ms, ds], [hs, mins] =>
      (match parseDigits ys.data, parseDigits ms.data, parseDigits ds.data,
          parseDigits hs.data, parseDigits mins.data with
      | some y, some m, some d, some h, some mi =>
        if ys.data.length ≤ 4 && ms.data.length ≤ 2 && ds.data.length ≤ 2 &&
            hs.data.length ≤ 2 && mins.data.length ≤ 2 &&
            1 ≤ m && m ≤ 12 && 1 ≤ d && (d : ℤ) ≤ daysInMonth y m &&
            h ≤ 23 && mi ≤ 59 then
          some (daysFromCivil y m d * 1440 + h * 60 + mi)
        else none
      | _, _, _, _, _ => none)
    | _, _ => none)
  | _ => none

/-- `_is_within_days` (news_fetcher.py:21-30). `nowMinutes` is `datetime.now(UTC)`
in minutes since the epoch; the cutoff is `now - days_back` days, floored to
midnight UTC (`replace(hour=0, minute=0, second=0, microsecond=0)`). An
unparsable date keeps the item (fail-open `except: return True`). -/
def _is_within_days (published_date : String) (days_back : ℤ) (nowMinutes : ℤ) : Bool :=
  match strptimeYmdHM published_date with
  | none => true
  | some newsMinutes =>
    let cutoffMidnight := ((nowMinutes - days_back * 1440).ediv 1440) * 1440
    cutoffMidnight ≤ newsMinutes

/-! ## The two news sources (news_fetcher.py:33-110)

The wire clients are external collaborators; their responses enter the
embedding as `Except`-valued oracles (`Except.error` models any raised
exception, which both fetcher functions catch and turn into `[]`). Raw items
are dicts; `Option` fields model possibly-missing keys. -/

/-- A raw `client.company_news` item, with the keys `fetch_from_finnhub` reads. -/
structure FinnhubRaw where
  headline : Option String
  source : Option String
  datetime : Option ℤ
  summary : Option String
  url : Option String
deriving DecidableEq

/-- A raw `ticker.news` item, with the keys `fetch_from_yfinance` reads. -/
structure YfRaw where
  title : Option String
  publisher : Option String
  providerPublishTime : Option ℤ
  link : Option String
deriving DecidableEq

/-- `fetch_from_finnhub` (news_fetcher.py:33-68): maps the first `max_news` raw
items to news dicts; returns `[]` on an empty response or on any exception. -/
def fetch_from_finnhub (resp : Except String (List FinnhubRaw)) (max_news : Nat) :
    List NewsItem :=
  match resp with
  | .error _ => []
  | .ok news_data =>
    if news_data = [] then []
    else (news_data.take max_news).map (fun item =>
      { title := some (item.headline.getD "")
        source := some (item.source.getD "")
        published_at := some (_parse_finnhub_date (item.datetime.getD 0))
        summary := some (item.summary.getD "")
        url := some (item.url.getD "") })

/-- `fetch_from_yfinance` (news_fetcher.py:71-110): the fallback source; the
summary field is always empty; a zero/missing `providerPublishTime` renders as
an empty date string. -/
def fetch_from_yfinance (resp : Except String (List YfRaw)) (max_news : Nat) :
    List NewsItem :=
  match resp with
  | .error _ => []
  | .ok news_data =>
    if news_data = [] then []
    else (news_data.take max_news).map (fun item =>
      let published := item.providerPublishTime.getD 0
      { title := some (item.title.getD "")
        source := some (item.publisher.getD "")
        published_at := some (if published ≠ 0 then _parse_finnhub_date published else "")
        summary := some ""
        url := some (item.link.getD "") })

/-- The body of the `fetch_news` per-symbol loop (news_fetcher.py:207-231) for an
already-normalized symbol: Finnhub only when an API key is configured, yfinance
when Finnhub yielded nothing, then the recency filter when `days_back > 0`.
(The pacing `time.sleep(1.1)` between Finnhub calls has no data effect and is
not modelled.) -/
def fetch_news_for (finnhubOracle : String → Except String (List FinnhubRaw))
    (yfOracle : String → Except String (List YfRaw)) (days_back : ℤ)
    (finnhub_api_key : Option String) (nowMinutes : ℤ) (symbol : String) : List NewsItem :=
  let news_list := match finnhub_api_key with
    | some key => if key ≠ "" then fetch_from_finnhub (finnhubOracle symbol) 20 else []
    | none => []
  let news_list := if news_list = [] then fetch_from_yfinance (yfOracle symbol) 20 else news_list
  if 0 < days_back then
    news_list.filter (fun n => _is_within_days (n.published_at.getD "") days_back nowMinutes)
  else news_list

/-- `fetch_news` (news_fetcher.py:181-233): one dict entry per normalized
(`strip().upper()`) symbol, filled in request order. -/
def fetch_news (symbols : List String) (days_back : ℤ) (finnhub_api_key : Option String)
    (finnhubOracle : String → Except String (List FinnhubRaw))
    (yfOracle : String → Except String (List YfRaw)) (nowMinutes : ℤ) :
    List (String × List NewsItem) :=
  symbols.foldl (fun result sym =>
    let symbol := pyUpper (pyStrip sym)
    dinsert symbol
      (fetch_news_for finnhubOracle yfOracle days_back finnhub_api_key nowMinutes symbol)
      result) []

/-! ## `get_stock_info` (news_fetcher.py:113-178) -/

/-- The keys of `ticker.info` that `get_stock_info` reads. -/
structure TickerInfo where
  longName : Option String
  previousClose : Option ℚ
  currentPrice : Option ℚ
deriving DecidableEq

/-- The dict returned by `get_stock_info`. -/
structure StockInfoResult where
  company_name : String
  current_price : Option ℚ
  change : ℚ
  change_percent : ℚ
  week_8_low : Option ℚ
  week_8_high : Option ℚ
deriving DecidableEq

/-- Minimum of a daily series (used for `recent_hist['Low'].min()`); the list is
non-empty on every reachable path. -/
def seriesMin : List ℚ → ℚ
  | [] => 0
  | x :: xs => xs.foldl min x

/-- Maximum of a daily series (`recent_hist['High'].max()`). -/
def seriesMax : List ℚ → ℚ
  | [] => 0
  | x :: xs => xs.foldl max x

/-- `get_stock_info` (news_fetcher.py:113-178). `infoResp` models `ticker.info`
(an exception anywhere in the outer `try` yields the fully degraded dict);
`histResp` models `ticker.history(...)` as (Low, High) rows (an exception
leaves the 8-week fields `None`). The guard
`if previous_close and previous_close > 0` collapses to `0 < previous_close`
(`0` is falsy). -/
def get_stock_info (symbol : String) (infoResp : Except String TickerInfo)
    (histResp : Except String (List (ℚ × ℚ))) : StockInfoResult :=
  match infoResp with
  | .error _ =>
    { company_name := symbol, current_price := none, change := 0, change_percent := 0
      week_8_low := none, week_8_high := none }
  | .ok info =>
    let company_name := info.longName.getD symbol
    let previous_close := info.previousClose.getD 0
    let current_price := info.currentPrice.getD previous_close
    let res : ℚ × ℚ × ℚ :=
      if 0 < previous_close then
        (current_price - previous_close,
          (current_price - previous_close) / previous_close * 100, current_price)
      else (0, 0, 0)
    let lowHigh : Option ℚ × Option ℚ :=
      match histResp with
      | .error _ => (none, none)
      | .ok hist =>
        if hist = [] then (none, none)
        else
          let recent := hist.drop (hist.length - 56)
          (some (pyRound2 (seriesMin (recent.map Prod.fst))),
            some (pyRound2 (seriesMax (recent.map Prod.snd))))
    { company_name := company_name
      current_price := if res.2.2 ≠ 0 then some (pyRound2 res.2.2) else none
      change := pyRound2 res.1
      change_percent := pyRound2 res.2.1
      week_8_low := lowHigh.1
      week_8_high := lowHigh.2 }

/-! ## `ai_summarizer` (src/modules/ai_summarizer.py)

The Anthropic client is an external collaborator. Its typed exceptions form a
hierarchy: `RateLimitError` and `AuthenticationError` derive from
`APIStatusError`, `APITimeoutError` from `APIConnectionError`, and all of
those from `APIError` — so Python's `except APIError` inside the model loop
catches every one of them, while a non-`APIError` exception escapes the model
loop. `PyErr` carries one constructor per concrete exception class the source
can observe; `str(e)` is modelled as the carried message. -/

inductive PyErr where
  | rateLimitErr (msg : String)
  | apiTimeoutErr (msg : String)
  | authenticationErr (msg : String)
  | apiErr (msg : String)
  | otherErr (typeName : String) (msg : String)
deriving DecidableEq

/-- Python `str(e)`. -/
def PyErr.str : PyErr → String
  | .rateLimitErr m => m
  | .apiTimeoutErr m => m
  | .authenticationErr m => m
  | .apiErr m => m
  | .otherErr _ m => m

/-- Python `type(e).__name__`. -/
def PyErr.pyTypeName : PyErr → String
  | .rateLimitErr _ => "RateLimitError"
  | .apiTimeoutErr _ => "APITimeoutError"
  | .authenticationErr _ => "AuthenticationError"
  | .apiErr _ => "APIError"
  | .otherErr n _ => n

/-- `isinstance(e, APIError)` under the anthropic exception hierarchy:
true for `APIError` and all of its subclasses (`RateLimitError`,
`APITimeoutError`, `AuthenticationError`), false for unrelated exceptions. -/
def isAPIError : PyErr → Bool
  | .otherErr _ _ => false
  | _ => true

/-- Outcome of one `client.messages.create` call: a reply or a raised
exception. -/
inductive LLMResp where
  | ok (text : String)
  | raise (e : PyErr)
deriving DecidableEq

/-- The LLM client as an oracle: global call index, model id, prompt ↦
outcome. A deterministic oracle makes the embedded summarizer a total
function of its inputs. -/
def LLMOracle : Type := Nat → String → String → LLMResp

/-- `_get_company_name` (ai_summarizer.py:29-32): returns the symbol itself. -/
def _get_company_name (symbol : String) : String := symbol

/-- `_format_error` (ai_summarizer.py:278-283). -/
def _format_error (symbol company_name language error_msg : String) : String :=
  if language = "zh" then
    "## " ++ symbol ++ "（" ++ company_name ++ "）\n\n⚠️ 摘要生成失败\n\n错误信息：" ++
      error_msg ++ "\n\n请稍后重试。"
  else
    "## " ++ symbol ++ " (" ++ company_name ++ ")\n\n⚠️ Summary generation failed\n\nError: " ++
      error_msg ++ "\n\nPlease try again later."

/-- `enumerate(l, i)`. -/
def enumerateFrom {α : Type} (i : Nat) : List α → List (Nat × α)
  | [] => []
  | x :: xs => (i, x) :: enumerateFrom (i + 1) xs

/-- The lines appended for one news item in `_build_news_list_text`
(ai_summarizer.py:19-24). -/
def newsItemLines (p : Nat × NewsItem) : List String :=
  [Nat.repr p.1 ++ ". 标题：" ++ p.2.title.getD ""] ++
    (if p.2.summary.getD "" ≠ "" then ["   摘要：" ++ p.2.summary.getD ""] else []) ++
    ["   来源：" ++ p.2.source.getD "" ++ " | 时间：" ++ p.2.published_at.getD "", ""]

/-- `_build_news_list_text` (ai_summarizer.py:13-26). -/
def _build_news_list_text (news_list : List NewsItem) (max_items : Nat) : String :=
  if news_list = [] then "今日无相关新闻。"
  else pyJoin "\n" ((enumerateFrom 1 (news_list.take max_items)).flatMap newsItemLines)

/-- `_build_prompt` (ai_summarizer.py:35-109): two languages × (with/without
prediction section), interpolating symbol, company name, date and the
formatted news list. -/
def _build_prompt (symbol company_name : String) (news_list : List NewsItem)
    (date language : String) (include_prediction : Bool) : String :=
  let news_text := _build_news_list_text news_list 15
  if include_prediction then
    if language = "zh" then
      "你是一位专业的股票分析师助手。以下是 " ++ symbol ++ "（" ++ company_name ++ "）在 " ++
        date ++ " 的新闻列表：\n\n" ++ news_text ++
        "\n\n请用中文生成一份简洁的每日分析报告，包含以下部分：\n1. **重要事件**（2-4条，每条一句话）\n2. **市场情绪**（正面/中性/负面，并简要说明原因）\n3. **需要关注**（1-2个风险点或机会点）\n4. **短期走势预测**\n   - 预测方向：看涨/看跌/中性\n   - 置信度：高/中/低\n   - 关键因素：用1-2句话说明支撑此预测的核心因素\n\n要求：\n- 基于新闻进行客观分析，不做买卖建议\n- 预测仅为技术分析参考，不构成投资建议\n- 总字数控制在 300 字以内"
    else
      "You are a professional stock analyst assistant. Below is the news list for " ++ symbol ++
        " (" ++ company_name ++ ") on " ++ date ++ ":\n\n" ++ news_text ++
        "\n\nPlease generate a concise daily analysis report in English, including:\n1. **Key Events** (2-4 items, one sentence each)\n2. **Market Sentiment** (Positive/Neutral/Negative, with brief reason)\n3. **Watch List** (1-2 risk points or opportunities)\n4. **Short-term Trend Prediction**\n   - Direction: Bullish/Bearish/Neutral\n   - Confidence: High/Medium/Low\n   - Key Factors: 1-2 sentences supporting the prediction\n\nRequirements:\n- Objective analysis based on news, no buy/sell recommendations\n- Prediction is for technical reference only, not investment advice\n- Keep under 300 words"
  else
    if language = "zh" then
      "你是一位专业的股票分析师助手。以下是 " ++ symbol ++ "（" ++ company_name ++ "）在 " ++
        date ++ " 的新闻列表：\n\n" ++ news_text ++
        "\n\n请用中文生成一份简洁的每日简报，包含以下部分：\n1. **重要事件**（2-4条，每条一句话）\n2. **市场情绪**（正面/中性/负面，并简要说明原因）\n3. **需要关注**（1-2个风险点或机会点）\n\n要求：\n- 简洁客观，不做投资建议\n- 如果新闻较少或不重要，直接说明\"今日无重大事件\"\n- 总字数控制在 200 字以内"
    else
      "You are a professional stock analyst assistant. Below is the news list for " ++ symbol ++
        " (" ++ company_name ++ ") on " ++ date ++ ":\n\n" ++ news_text ++
        "\n\nPlease generate a concise daily brief in English, including:\n1. **Key Events** (2-4 items, one sentence each)\n2. **Market Sentiment** (Positive/Neutral/Negative, with brief reason)\n3. **Watch List** (1-2 risk points or opportunities)\n\nRequirements:\n- Concise and objective, no investment advice\n- If news is limited or insignificant, state \"No major events today\"\n- Keep under 200 words"

/-- `models_to_try` (ai_summarizer.py:169-181): the proxy list when a base URL
is configured and is not an `anthropic.com` endpoint, else the official list.
(`if base_url and "anthropic.com" not in base_url:` — `None` and `""` are
falsy.) -/
def models_to_try (base_url : Option String) : List String :=
  match base_url with
  | some u =>
    if u ≠ "" && !(pyContains u "anthropic.com") then
      ["claude-sonnet-4-20250514", "claude-3-5-sonnet-20241022"]
    else
      ["claude-sonnet-4-20250514", "claude-sonnet-4-20250513", "claude-3-5-sonnet-20241022"]
  | none =>
    ["claude-sonnet-4-20250514", "claude-sonnet-4-20250513", "claude-3-5-sonnet-20241022"]

/-- Outcome of the inner `for model in models_to_try` loop
(ai_summarizer.py:186-210), with the number of `messages.create` calls made. -/
inductive ModelLoopOut where
  | success (text : String) (callsMade : Nat)
  | exhausted (model_error : Option PyErr) (callsMade : Nat)
  | raised (e : PyErr) (callsMade : Nat)
deriving DecidableEq

/-- The inner model loop (ai_summarizer.py:186-210): each model is tried once;
`except APIError` catches every API-class exception. On a `401`/`Unauthorized`
message the handler executes `raise AuthenticationError(str(e))`
(ai_summarizer.py:205) — but anthropic's `AuthenticationError` inherits
`APIStatusError.__init__(message, *, response, body)` whose `response` and
`body` arguments are *required keyword-only*, so this construction itself
raises a `TypeError` reporting the missing arguments, and that `TypeError` is
what propagates out of the model loop. The `TypeError`'s exact message text
depends on the CPython version (3.10+ prefixes the class qualifier, and the
argument names are quoted), so it enters the model as the parameter
`authCtorTypeError`; no version's wording contains the substring `401`, the
only property the outer handlers read. On other API-class errors the loop
advances to the next model remembering `model_error`; a non-API exception
propagates at once. -/
def tryModels (authCtorTypeError : String) (oracle : LLMOracle) (prompt : String)
    (callIdx : Nat) : List String → Option PyErr → ModelLoopOut
  | [], model_error => .exhausted model_error 0
  | model :: rest, _ =>
    match oracle callIdx model prompt with
    | .ok text => .success text 1
    | .raise e =>
      if isAPIError e then
        if pyContains e.str "401" || pyContains e.str "Unauthorized" then
          .raised (.otherErr "TypeError" authCtorTypeError) 1
        else
          match tryModels authCtorTypeError oracle prompt (callIdx + 1) rest (some e) with
          | .success t c => .success t (c + 1)
          | .exhausted me c => .exhausted me (c + 1)
          | .raised e2 c => .raised e2 (c + 1)
      else .raised e 1

/-- The final `# 所有重试都失败` message (ai_summarizer.py:273):
`f"API 调用失败: {type(last_error).__name__}: {str(last_error)[:100] if last_error else 'Unknown error'}"`. -/
def finalErrorMsg (last_error : Option PyErr) : String :=
  match last_error with
  | some e => "API 调用失败: " ++ e.pyTypeName ++ ": " ++ pyTake 100 e.str
  | none => "API 调用失败: NoneType: Unknown error"

/-- What one `except` dispatch does with an exception that reached the outer
handlers (ai_summarizer.py:226-270). -/
inductive StepRes where
  | done (text : String)
  | retry (sleep : List ℚ) (last : PyErr)
  | stop (last : PyErr)
deriving DecidableEq

/-- The outer exception handlers of `summarize_stock_news`
(ai_summarizer.py:226-270), dispatched per Python `isinstance` order:
`AuthenticationError` returns a formatted error at once; `RateLimitError`
sleeps `retry_delay * 2 ** attempt` and retries; `APITimeoutError` sleeps
`retry_delay` and retries; other `APIError`s return the auth-failure result
when the message looks like a 401, else sleep (except on the last attempt) and
retry; any other exception returns the auth-failure result on a `401` message
and otherwise `break`s out of the retry loop. -/
def handleExc (symbol company_name language : String) (max_retries : Nat)
    (retry_delay : ℚ) (attempt : Nat) (e : PyErr) : StepRes :=
  match e with
  | .authenticationErr m =>
    .done (_format_error symbol company_name language ("认证失败: " ++ pyTake 80 m))
  | .rateLimitErr _ => .retry [retry_delay * 2 ^ attempt] e
  | .apiTimeoutErr _ => .retry [retry_delay] e
  | .apiErr m =>
    if pyContains m "401" || pyContains m "Unauthorized" ||
        pyContains (pyLower m) "authentication" then
      .done (_format_error symbol company_name language ("认证失败: " ++ pyTake 80 m))
    else .retry (if attempt + 1 < max_retries then [retry_delay] else []) e
  | .otherErr _ m =>
    if pyContains m "401" then
      .done (_format_error symbol company_name language ("认证失败: " ++ pyTake 80 m))
    else .stop e

/-- The result of `summarize_stock_news`, instrumented with the number of
`messages.create` calls issued and the sequence of `time.sleep` durations. -/
structure SummarizeOut where
  text : String
  llmCalls : Nat
  sleeps : List ℚ
deriving DecidableEq

/-- The `for attempt in range(max_retries)` loop of `summarize_stock_news`
(ai_summarizer.py:162-275), by recursion on the remaining attempts. On
success the title line is prepended and the pacing `time.sleep(retry_delay)`
runs before returning (ai_summarizer.py:213-224); an exhausted model loop
re-raises `model_error or Exception("所有模型尝试失败")` into the outer
handlers; exhausting the attempt budget (or `break`) formats the last error. -/
def summarizeLoop (authCtorTypeError : String) (oracle : LLMOracle) (models : List String)
    (prompt : String) (symbol company_name language : String) (max_retries : Nat)
    (retry_delay : ℚ) :
    Nat → Nat → Nat → List ℚ → Option PyErr → SummarizeOut
  | 0, _, calls, sleeps, last_error =>
    ⟨_format_error symbol company_name language (finalErrorMsg last_error), calls, sleeps⟩
  | fuel + 1, attempt, calls, sleeps, last_error =>
    match tryModels authCtorTypeError oracle prompt calls models none with
    | .success text c =>
      let title := if language = "zh" then "## " ++ symbol ++ "（" ++ company_name ++ "）"
        else "## " ++ symbol ++ " (" ++ company_name ++ ")"
      ⟨title ++ "\n\n" ++ text, calls + c, sleeps ++ [retry_delay]⟩
    | .exhausted me c =>
      match handleExc symbol company_name language max_retries retry_delay attempt
          (me.getD (.otherErr "Exception" "所有模型尝试失败")) with
      | .done t => ⟨t, calls + c, sleeps⟩
      | .retry sl e2 =>
        summarizeLoop authCtorTypeError oracle models prompt symbol company_name language
          max_retries retry_delay fuel (attempt + 1) (calls + c) (sleeps ++ sl) (some e2)
      | .stop e2 =>
        ⟨_format_error symbol company_name language (finalErrorMsg (some e2)), calls + c, sleeps⟩
    | .raised e c =>
      match handleExc symbol company_name language max_retries retry_delay attempt e with
      | .done t => ⟨t, calls + c, sleeps⟩
      | .retry sl e2 =>
        summarizeLoop authCtorTypeError oracle models prompt symbol company_name language
          max_retries retry_delay fuel (attempt + 1) (calls + c) (sleeps ++ sl) (some e2)
      | .stop e2 =>
        ⟨_format_error symbol company_name language (finalErrorMsg (some e2)), calls + c, sleeps⟩

/-- `summarize_stock_news` (ai_summarizer.py:112-275). `date = none` models the
Python `date=None` default, resolved to `todayStr` (`datetime.now()`'s date);
an empty `api_key` is falsy. The news-list items, language, retry budget and
delays are as in the source; the LLM transport is the oracle, and
`authCtorTypeError` is the message of the `TypeError` raised by the faulty
`AuthenticationError(str(e))` construction (see `tryModels`). -/
def summarize_stock_news (authCtorTypeError : String) (oracle : LLMOracle) (symbol : String)
    (news_list : List NewsItem) (date : Option String) (todayStr : String) (api_key : String)
    (base_url : Option String) (language : String) (max_retries : Nat) (retry_delay : ℚ)
    (include_prediction : Bool) : SummarizeOut :=
  if api_key = "" then
    ⟨_format_error symbol symbol language "缺少 Anthropic API Key", 0, []⟩
  else
    let dateStr := date.getD todayStr
    let company_name := _get_company_name symbol
    if news_list = [] then
      ⟨(if language = "zh" then
          "## " ++ symbol ++ "（" ++ company_name ++ "）\n\n今日无重大新闻事件。"
        else "## " ++ symbol ++ " (" ++ company_name ++ ")\n\nNo major news events today."),
        0, []⟩
    else
      let prompt := _build_prompt symbol company_name news_list dateStr language
        include_prediction
      summarizeLoop authCtorTypeError oracle (models_to_try base_url) prompt symbol
        company_name language max_retries retry_delay max_retries 0 0 [] none

/-! # Theorems -/

/-! ## Shared dict / fold lemmas -/

lemma dkeys_dinsert {α : Type} (k : String) (v : α) (d : List (String × α)) :
    dkeys (dinsert k v d) = if k ∈ dkeys d then dkeys d else dkeys d ++ [k] := by
  induction d with
  | nil => simp [dinsert, dkeys]
  | cons hd tl ih =>
    obtain ⟨k2, v2⟩ := hd
    by_cases h : k2 = k
    · subst h
      simp [dinsert, dkeys]
    · rw [show dinsert k v ((k2, v2) :: tl) = (k2, v2) :: dinsert k v tl from by
        simp [dinsert, h]]
      rw [show dkeys ((k2, v2) :: dinsert k v tl) = k2 :: dkeys (dinsert k v tl) from rfl]
      rw [ih, show dkeys ((k2, v2) :: tl) = k2 :: dkeys tl from rfl]
      by_cases hmem : k ∈ dkeys tl
      · rw [if_pos hmem, if_pos (List.mem_cons_of_mem _ hmem)]
      · rw [if_neg hmem, if_neg (by simp [List.mem_cons, Ne.symm h, hmem]),
          List.cons_append]

lemma run_digest_keys_aux (f : String → String) :
    ∀ (xs : List String) (d : List (String × String)),
      dkeys (xs.foldl (fun d s => dinsert s (f s) d) d) =
        xs.foldl (fun acc s => if s ∈ acc then acc else acc ++ [s]) (dkeys d) := by
  intro xs
  induction xs with
  | nil => intro d; rfl
  | cons x xs ih =>
    intro d
    simp only [List.foldl_cons, ih, dkeys_dinsert]

/-- The card keys produced by the pipeline's dict equal the spec-side
first-occurrence dedup. -/
lemma run_digest_keys (symbols : List String) (f : String → String) :
    dkeys (run_digest_summaries symbols f) = firstOccurrences symbols := by
  simpa [run_digest_summaries, firstOccurrences, dkeys] using
    run_digest_keys_aux f symbols []

lemma firstOcc_fold_mem (a : String) :
    ∀ (xs acc : List String),
      (a ∈ xs.foldl (fun acc s => if s ∈ acc then acc else acc ++ [s]) acc ↔
        a ∈ acc ∨ a ∈ xs) := by
  intro xs
  induction xs with
  | nil => simp
  | cons x xs ih =>
    intro acc
    simp only [List.foldl_cons]
    rw [ih]
    by_cases hx : x ∈ acc
    · simp only [if_pos hx]
      constructor
      · rintro (h | h)
        · exact Or.inl h
        · exact Or.inr (List.mem_cons_of_mem _ h)
      · rintro (h | h)
        · exact Or.inl h
        · rcases List.mem_cons.mp h with rfl | h
          · exact Or.inl hx
          · exact Or.inr h
    · simp only [if_neg hx, List.mem_append, List.mem_singleton, List.mem_cons]
      tauto

lemma firstOcc_fold_nodup :
    ∀ (xs acc : List String), acc.Nodup →
      (xs.foldl (fun acc s => if s ∈ acc then acc else acc ++ [s]) acc).Nodup := by
  intro xs
  induction xs with
  | nil => intro acc h; exact h
  | cons x xs ih =>
    intro acc h
    simp only [List.foldl_cons]
    by_cases hx : x ∈ acc
    · simpa [if_pos hx] using ih acc h
    · refine ih _ ?_
      simpa [List.nodup_append, hx] using h

lemma firstOccurrences_nodup (symbols : List String) : (firstOccurrences symbols).Nodup :=
  firstOcc_fold_nodup symbols [] List.nodup_nil

lemma mem_firstOccurrences (a : String) (symbols : List String) :
    a ∈ firstOccurrences symbols ↔ a ∈ symbols := by
  simpa [firstOccurrences] using firstOcc_fold_mem a symbols []

/-- `build_html_report` labels each card with exactly the dict key it was built
from, so the cards' symbols list the `summaries` keys in order. -/
lemma report_card_symbols (summaries : List (String × String))
    (stock_info : List (String × InfoEntry)) (news_data : List (String × List NewsItem))
    (predictions : Option (List (String × String))) (language : String) (now : PyDateTime) :
    (build_html_report summaries stock_info news_data predictions language now).stocks.map
      StockCard.symbol = dkeys summaries := by
  simp only [build_html_report, List.map_map]
  have : (StockCard.symbol ∘ build_stock_card stock_info news_data predictions summaries) =
      fun s => s := by
    funext s
    simp [build_stock_card, Function.comp]
  rw [this, List.map_id']

lemma dlookup_dinsert_self {α : Type} (k : String) (v : α) (d : List (String × α)) :
    dlookup k (dinsert k v d) = some v := by
  induction d with
  | nil => simp [dinsert, dlookup]
  | cons hd tl ih =>
    obtain ⟨k2, v2⟩ := hd
    by_cases h : k2 = k
    · subst h; simp [dinsert, dlookup]
    · simp [dinsert, dlookup, h, ih]

lemma dlookup_dinsert_other {α : Type} (k k2 : String) (v : α) (d : List (String × α))
    (h : k2 ≠ k) : dlookup k (dinsert k2 v d) = dlookup k d := by
  induction d with
  | nil => simp [dinsert, dlookup, h]
  | cons hd tl ih =>
    obtain ⟨k3, v3⟩ := hd
    by_cases h3 : k3 = k2
    · subst h3; simp [dinsert, dlookup, h]
    · by_cases hk : k3 = k
      · subst hk; simp [dinsert, dlookup, h3]
      · simp [dinsert, dlookup, h3, hk, ih]

/-! ## C1 — one card per requested symbol -/

/-- C1 (corrected): driving a symbol list through the pipeline (`run_digest`'s
step-3 `summaries` dict into `build_html_report`) produces exactly one card per
*distinct* requested symbol, in first-occurrence request order — each requested
symbol appears exactly once among the cards; duplicates in the request list are
collapsed, not preserved. -/
theorem C1_one_card_per_distinct_symbol (symbols : List String) (summaryOf : String → String)
    (stock_info : List (String × InfoEntry)) (news_data : List (String × List NewsItem))
    (predictions : Option (List (String × String))) (language : String) (now : PyDateTime)
    (hne : symbols ≠ []) :
    (build_html_report (run_digest_summaries symbols summaryOf) stock_info news_data
        predictions language now).stocks.map StockCard.symbol = firstOccurrences symbols ∧
    ∀ s ∈ symbols,
      ((build_html_report (run_digest_summaries symbols summaryOf) stock_info news_data
          predictions language now).stocks.map StockCard.symbol).count s = 1 := by
  rw [report_card_symbols, run_digest_keys]
  refine ⟨rfl, fun s hs => ?_⟩
  exact List.count_eq_one_of_mem (firstOccurrences_nodup symbols)
    ((mem_firstOccurrences s symbols).mpr hs)

/-- C1 witness: a concrete three-symbol request (with a duplicate) yields cards
`["AAA", "BBB"]`, and each requested symbol appears exactly once. -/
theorem C1_one_card_per_distinct_symbol_witness :
    (build_html_report (run_digest_summaries ["AAA", "BBB", "AAA"] (fun s => s))
        [] [] none "zh" ⟨2024, 1, 15, 8, 0, 0, 0⟩).stocks.map StockCard.symbol =
      firstOccurrences ["AAA", "BBB", "AAA"] ∧
    ∀ s ∈ ["AAA", "BBB", "AAA"],
      ((build_html_report (run_digest_summaries ["AAA", "BBB", "AAA"] (fun s => s))
          [] [] none "zh" ⟨2024, 1, 15, 8, 0, 0, 0⟩).stocks.map StockCard.symbol).count s = 1 :=
  C1_one_card_per_distinct_symbol ["AAA", "BBB", "AAA"] (fun s => s) [] [] none "zh"
    ⟨2024, 1, 15, 8, 0, 0, 0⟩ (by decide)

/-- C1 counterexample: requesting `["AAA", "AAA"]` (two occurrences) yields a
report with a single `AAA` card, not one card per requested occurrence — the
dict keyed by symbol collapses duplicates, refuting "duplicates preserved". -/
theorem C1_counterexample :
    (build_html_report (run_digest_summaries ["AAA", "AAA"] (fun _ => "s"))
        [] [] none "zh" ⟨2024, 1, 15, 8, 0, 0, 0⟩).stocks.map StockCard.symbol = ["AAA"] := by
  decide

/-! ## C5 — empty news list short-circuit -/

/-- C5 (confirmed): with a credential configured and an empty news list,
`summarize_stock_news` returns the canonical "no major news" message for the
configured language under the `## symbol（company_name）` header, makes no LLM
call (zero calls for every oracle), and sleeps never. -/
theorem C5_empty_news_no_llm_call (authCtorTypeError : String) (oracle : LLMOracle)
    (symbol : String) (date : Option String) (todayStr api_key : String)
    (base_url : Option String) (language : String) (max_retries : Nat) (retry_delay : ℚ)
    (include_prediction : Bool)
    (hkey : api_key ≠ "") (hlang : language = "zh" ∨ language = "en") :
    summarize_stock_news authCtorTypeError oracle symbol [] date todayStr api_key base_url
        language max_retries retry_delay include_prediction =
      ⟨(if language = "zh" then "## " ++ symbol ++ "（" ++ symbol ++ "）\n\n今日无重大新闻事件。"
        else "## " ++ symbol ++ " (" ++ symbol ++ ")\n\nNo major news events today."),
        0, []⟩ := by
  simp [summarize_stock_news, hkey, _get_company_name]

/-- C5 witness: concrete empty-news call in Chinese, with an oracle that would
fail loudly if it were ever consulted. -/
theorem C5_empty_news_no_llm_call_witness :
    summarize_stock_news "ctor TypeError message"
        (fun _ _ _ => .raise (.apiErr "must not be called")) "AMD" []
        (some "2024-01-15") "2024-01-16" "k" none "zh" 3 3 false =
      ⟨(if "zh" = "zh" then "## " ++ "AMD" ++ "（" ++ "AMD" ++ "）\n\n今日无重大新闻事件。"
        else "## " ++ "AMD" ++ " (" ++ "AMD" ++ ")\n\nNo major news events today."),
        0, []⟩ :=
  C5_empty_news_no_llm_call "ctor TypeError message"
    (fun _ _ _ => .raise (.apiErr "must not be called")) "AMD"
    (some "2024-01-15") "2024-01-16" "k" none "zh" 3 3 false (by decide) (Or.inl rfl)

/-! ## C6 — guarded percent-change baseline -/

lemma pyRound2_zero : pyRound2 0 = 0 := by
  norm_num [pyRound2, roundHalfEven]

/-- C6 (confirmed): whenever the prior close is absent, zero or negative,
`get_stock_info` reports `change = 0` and `change_percent = 0` — the
percent-change division is guarded by `previous_close and previous_close > 0`
and is never taken with a non-positive baseline. -/
theorem C6_nonpositive_baseline_zero_change (symbol : String) (info : TickerInfo)
    (hist : Except String (List (ℚ × ℚ)))
    (h : info.previousClose = none ∨ ∃ p, info.previousClose = some p ∧ p ≤ 0) :
    (get_stock_info symbol (.ok info) hist).change = 0 ∧
      (get_stock_info symbol (.ok info) hist).change_percent = 0 := by
  have hpc : ¬(0 < info.previousClose.getD 0) := by
    rcases h with h | ⟨p, hp, hple⟩
    · simp [h]
    · simp only [hp, Option.getD_some]
      linarith
  simp [get_stock_info, hpc, pyRound2_zero]

/-- C6 witness: a negative prior close with a live current price still reports
exactly zero change and zero percent change. -/
theorem C6_nonpositive_baseline_zero_change_witness :
    (get_stock_info "AMD" (.ok ⟨some "Advanced Micro Devices", some (-5), some 3⟩)
        (.error "history call failed")).change = 0 ∧
      (get_stock_info "AMD" (.ok ⟨some "Advanced Micro Devices", some (-5), some 3⟩)
        (.error "history call failed")).change_percent = 0 :=
  C6_nonpositive_baseline_zero_change "AMD" ⟨some "Advanced Micro Devices", some (-5), some 3⟩
    (.error "history call failed") (Or.inr ⟨-5, rfl, by norm_num⟩)

/-! ## C7 — determinism of the Report Assembler -/

/-- C7 (corrected): `build_html_report` takes no timestamp argument in the
source — it reads `datetime.now()` once, and that clock reading reaches the
output only through the two formatted strings `report_date_str` (the header
date) and `report_generation_time` (the footer timestamp). With those two
formatted values equal, two calls on the same inputs produce identical render
structures, hence byte-identical HTML from the fixed template. (The claim's
"no hidden timestamp drift beyond the explicit generation-time field" fails:
the header date also drifts with the clock — see the counterexample — and
there is no injection parameter for determinism in tests.) -/
theorem C7_render_input_determinism (summaries : List (String × String))
    (stock_info : List (String × InfoEntry)) (news_data : List (String × List NewsItem))
    (predictions : Option (List (String × String))) (language : String) (n1 n2 : PyDateTime)
    (hdate : report_date_str language n1 = report_date_str language n2)
    (htime : report_generation_time n1 = report_generation_time n2) :
    build_html_report summaries stock_info news_data predictions language n1 =
      build_html_report summaries stock_info news_data predictions language n2 := by
  simp [build_html_report, hdate, htime]

/-- C7 witness: two calls at one concrete instant agree. -/
theorem C7_render_input_determinism_witness :
    build_html_report [("AAA", "s")] [] [] none "zh" ⟨2024, 1, 15, 8, 0, 0, 0⟩ =
      build_html_report [("AAA", "s")] [] [] none "zh" ⟨2024, 1, 15, 8, 0, 0, 0⟩ :=
  C7_render_input_determinism [("AAA", "s")] [] [] none "zh"
    ⟨2024, 1, 15, 8, 0, 0, 0⟩ ⟨2024, 1, 15, 8, 0, 0, 0⟩ rfl rfl

/-- C7 counterexample: with identical pipeline inputs, two clock instants one
day apart change the rendered header date string — the timestamp drift is not
confined to the explicit generation-time field, refuting the claim as
stated. -/
theorem C7_counterexample :
    (build_html_report [("AAA", "s")] [] [] none "zh"
        ⟨2024, 1, 15, 8, 0, 0, 0⟩).date_str ≠
      (build_html_report [("AAA", "s")] [] [] none "zh"
        ⟨2024, 1, 16, 8, 0, 0, 1⟩).date_str := by
  decide

/-! ## C8 — trend badge / trend class correspondence -/

lemma trend_class_bull (t : String) (ht : t ≠ "") (hb : bullishKw t = true) :
    _extract_trend_class t = some "trend-bullish" := by
  have hc : (pyContains t "看涨" || pyContains (pyLower t) "bullish" ||
      pyContains t "📈") = true := by simpa [bullishKw, Bool.or_assoc, Bool.or_comm,
    Bool.or_left_comm] using hb
  simp [_extract_trend_class, ht, hc]

lemma trend_class_bear (t : String) (ht : t ≠ "") (hb : bullishKw t = false)
    (hr : bearishKw t = true) : _extract_trend_class t = some "trend-bearish" := by
  obtain ⟨⟨hb1, hb2⟩, hb3⟩ : (pyContains t "看涨" = false ∧
      pyContains (pyLower t) "bullish" = false) ∧ pyContains t "📈" = false := by
    simpa [bullishKw, Bool.or_eq_false_iff] using hb
  have hc : (pyContains t "看跌" || pyContains (pyLower t) "bearish" ||
      pyContains t "📉") = true := by simpa [bearishKw, Bool.or_assoc, Bool.or_comm,
    Bool.or_left_comm] using hr
  simp [_extract_trend_class, ht, hb1, hb2, hb3, hc]

lemma trend_class_neut (t : String) (ht : t ≠ "") (hb : bullishKw t = false)
    (hr : bearishKw t = false) (hn : neutralKw t = true) :
    _extract_trend_class t = some "trend-neutral" := by
  obtain ⟨⟨hb1, hb2⟩, hb3⟩ : (pyContains t "看涨" = false ∧
      pyContains (pyLower t) "bullish" = false) ∧ pyContains t "📈" = false := by
    simpa [bullishKw, Bool.or_eq_false_iff] using hb
  obtain ⟨⟨hr1, hr2⟩, hr3⟩ : (pyContains t "看跌" = false ∧
      pyContains (pyLower t) "bearish" = false) ∧ pyContains t "📉" = false := by
    simpa [bearishKw, Bool.or_eq_false_iff] using hr
  have hc : (pyContains t "中立" || pyContains (pyLower t) "neutral" ||
      pyContains t "➡️") = true := by simpa [neutralKw, Bool.or_assoc, Bool.or_comm,
    Bool.or_left_comm] using hn
  simp [_extract_trend_class, ht, hb1, hb2, hb3, hr1, hr2, hr3, hc]

lemma trend_badge_bull (t : String) (ht : t ≠ "") (hb : bullishKw t = true)
    (hr : bearishKw t = false) (hn : neutralKw t = false) :
    _extract_trend_badge t = some "看涨 📈" ∨ _extract_trend_badge t = some "Bullish 📈" := by
  obtain ⟨⟨hr1, hr2⟩, hr3⟩ : (pyContains t "看跌" = false ∧
      pyContains (pyLower t) "bearish" = false) ∧ pyContains t "📉" = false := by
    simpa [bearishKw, Bool.or_eq_false_iff] using hr
  obtain ⟨⟨hn1, hn2⟩, hn3⟩ : (pyContains t "中立" = false ∧
      pyContains (pyLower t) "neutral" = false) ∧ pyContains t "➡️" = false := by
    simpa [neutralKw, Bool.or_eq_false_iff] using hn
  by_cases hzh : (pyContains t "看涨" || pyContains t "📈") = true
  · left
    simp [_extract_trend_badge, ht, hzh]
  · right
    obtain ⟨hz1, hz2⟩ : pyContains t "看涨" = false ∧ pyContains t "📈" = false := by
      simpa [Bool.or_eq_false_iff] using (Bool.eq_false_iff.mpr hzh)
    have hen : pyContains (pyLower t) "bullish" = true := by
      rcases (by simpa [bullishKw, Bool.or_eq_true] using hb :
        (pyContains t "看涨" = true ∨ pyContains (pyLower t) "bullish" = true) ∨
          pyContains t "📈" = true) with (h | h) | h
      · rw [hz1] at h; exact absurd h (by decide)
      · exact h
      · rw [hz2] at h; exact absurd h (by decide)
    simp [_extract_trend_badge, ht, hz1, hz2, hr1, hr3, hn1, hn3, hen]

lemma trend_badge_bear (t : String) (ht : t ≠ "") (hb : bullishKw t = false)
    (hr : bearishKw t = true) (hn : neutralKw t = false) :
    _extract_trend_badge t = some "看跌 📉" ∨ _extract_trend_badge t = some "Bearish 📉" := by
  obtain ⟨⟨hb1, hb2⟩, hb3⟩ : (pyContains t "看涨" = false ∧
      pyContains (pyLower t) "bullish" = false) ∧ pyContains t "📈" = false := by
    simpa [bullishKw, Bool.or_eq_false_iff] using hb
  obtain ⟨⟨hn1, hn2⟩, hn3⟩ : (pyContains t "中立" = false ∧
      pyContains (pyLower t) "neutral" = false) ∧ pyContains t "➡️" = false := by
    simpa [neutralKw, Bool.or_eq_false_iff] using hn
  by_cases hzh : (pyContains t "看跌" || pyContains t "📉") = true
  · left
    simp [_extract_trend_badge, ht, hb1, hb3, hzh]
  · right
    obtain ⟨hz1, hz2⟩ : pyContains t "看跌" = false ∧ pyContains t "📉" = false := by
      simpa [Bool.or_eq_false_iff] using (Bool.eq_false_iff.mpr hzh)
    have hen : pyContains (pyLower t) "bearish" = true := by
      rcases (by simpa [bearishKw, Bool.or_eq_true] using hr :
        (pyContains t "看跌" = true ∨ pyContains (pyLower t) "bearish" = true) ∨
          pyContains t "📉" = true) with (h | h) | h
      · rw [hz1] at h; exact absurd h (by decide)
      · exact h
      · rw [hz2] at h; exact absurd h (by decide)
    simp [_extract_trend_badge, ht, hb1, hb2, hb3, hz1, hz2, hn1, hn3, hen]

lemma trend_badge_neut (t : String) (ht : t ≠ "") (hb : bullishKw t = false)
    (hr : bearishKw t = false) (hn : neutralKw t = true) :
    _extract_trend_badge t = some "中立 ➡️" ∨ _extract_trend_badge t = some "Neutral ➡️" := by
  obtain ⟨⟨hb1, hb2⟩, hb3⟩ : (pyContains t "看涨" = false ∧
      pyContains (pyLower t) "bullish" = false) ∧ pyContains t "📈" = false := by
    simpa [bullishKw, Bool.or_eq_false_iff] using hb
  obtain ⟨⟨hr1, hr2⟩, hr3⟩ : (pyContains t "看跌" = false ∧
      pyContains (pyLower t) "bearish" = false) ∧ pyContains t "📉" = false := by
    simpa [bearishKw, Bool.or_eq_false_iff] using hr
  by_cases hzh : (pyContains t "中立" || pyContains t "➡️") = true
  · left
    simp [_extract_trend_badge, ht, hb1, hb3, hr1, hr3, hzh]
  · right
    obtain ⟨hz1, hz2⟩ : pyContains t "中立" = false ∧ pyContains t "➡️" = false := by
      simpa [Bool.or_eq_false_iff] using (Bool.eq_false_iff.mpr hzh)
    have hen : pyContains (pyLower t) "neutral" = true := by
      rcases (by simpa [neutralKw, Bool.or_eq_true] using hn :
        (pyContains t "中立" = true ∨ pyContains (pyLower t) "neutral" = true) ∨
          pyContains t "➡️" = true) with (h | h) | h
      · rw [hz1] at h; exact absurd h (by decide)
      · exact h
      · rw [hz2] at h; exact absurd h (by decide)
    simp [_extract_trend_badge, ht, hb1, hb2, hb3, hr1, hr2, hr3, hz1, hz2, hen]

lemma trend_none (t : String) (hb : bullishKw t = false) (hr : bearishKw t = false)
    (hn : neutralKw t = false) :
    _extract_trend_class t = none ∧ _extract_trend_badge t = none := by
  by_cases ht : t = ""
  · subst ht
    constructor <;> decide
  · obtain ⟨⟨hb1, hb2⟩, hb3⟩ : (pyContains t "看涨" = false ∧
        pyContains (pyLower t) "bullish" = false) ∧ pyContains t "📈" = false := by
      simpa [bullishKw, Bool.or_eq_false_iff] using hb
    obtain ⟨⟨hr1, hr2⟩, hr3⟩ : (pyContains t "看跌" = false ∧
        pyContains (pyLower t) "bearish" = false) ∧ pyContains t "📉" = false := by
      simpa [bearishKw, Bool.or_eq_false_iff] using hr
    obtain ⟨⟨hn1, hn2⟩, hn3⟩ : (pyContains t "中立" = false ∧
        pyContains (pyLower t) "neutral" = false) ∧ pyContains t "➡️" = false := by
      simpa [neutralKw, Bool.or_eq_false_iff] using hn
    constructor
    · simp [_extract_trend_class, ht, hb1, hb2, hb3, hr1, hr2, hr3, hn1, hn2, hn3]
    · simp [_extract_trend_badge, ht, hb1, hb2, hb3, hr1, hr2, hr3, hn1, hn2, hn3]

lemma kw_ne_empty (t : String) (h : bullishKw t = true ∨ bearishKw t = true ∨
    neutralKw t = true) : t ≠ "" := by
  rintro rfl
  rcases h with h | h | h <;> exact absurd h (by decide)

/-- C8 (corrected): for a prediction text whose keywords fall within a single
trend category, the extracted badge and CSS class form the matching fixed pair
(bullish badge ↔ `trend-bullish`, bearish ↔ `trend-bearish`, neutral ↔
`trend-neutral`), and a text with no keyword of either language yields no badge
and no class. The claim's unrestricted "always correspond" is false: a text
mixing categories across languages can pair a badge with another category's
class (see the counterexample) because the badge scan checks all Chinese
groups before any English group while the class scan merges languages per
category. -/
theorem C8_badge_class_pairs_single_category (t : String) :
    (bullishKw t = true ∧ bearishKw t = false ∧ neutralKw t = false →
      _extract_trend_class t = some "trend-bullish" ∧
        (_extract_trend_badge t = some "看涨 📈" ∨
          _extract_trend_badge t = some "Bullish 📈")) ∧
    (bullishKw t = false ∧ bearishKw t = true ∧ neutralKw t = false →
      _extract_trend_class t = some "trend-bearish" ∧
        (_extract_trend_badge t = some "看跌 📉" ∨
          _extract_trend_badge t = some "Bearish 📉")) ∧
    (bullishKw t = false ∧ bearishKw t = false ∧ neutralKw t = true →
      _extract_trend_class t = some "trend-neutral" ∧
        (_extract_trend_badge t = some "中立 ➡️" ∨
          _extract_trend_badge t = some "Neutral ➡️")) ∧
    (bullishKw t = false ∧ bearishKw t = false ∧ neutralKw t = false →
      _extract_trend_class t = none ∧ _extract_trend_badge t = none) := by
  refine ⟨fun ⟨hb, hr, hn⟩ => ?_, fun ⟨hb, hr, hn⟩ => ?_, fun ⟨hb, hr, hn⟩ => ?_,
    fun ⟨hb, hr, hn⟩ => trend_none t hb hr hn⟩
  · have ht := kw_ne_empty t (Or.inl hb)
    exact ⟨trend_class_bull t ht hb, trend_badge_bull t ht hb hr hn⟩
  · have ht := kw_ne_empty t (Or.inr (Or.inl hr))
    exact ⟨trend_class_bear t ht hb hr, trend_badge_bear t ht hb hr hn⟩
  · have ht := kw_ne_empty t (Or.inr (Or.inr hn))
    exact ⟨trend_class_neut t ht hb hr hn, trend_badge_neut t ht hb hr hn⟩

/-- C8 witness: on the single-category text `"看涨"` the pair is (bullish badge,
`trend-bullish`); on `"nothing here"` both extractors return `none`. -/
theorem C8_badge_class_pairs_single_category_witness :
    (_extract_trend_class "看涨可期" = some "trend-bullish" ∧
      (_extract_trend_badge "看涨可期" = some "看涨 📈" ∨
        _extract_trend_badge "看涨可期" = some "Bullish 📈")) ∧
    (_extract_trend_class "nothing here" = none ∧
      _extract_trend_badge "nothing here" = none) :=
  ⟨(C8_badge_class_pairs_single_category "看涨可期").1 (by refine ⟨?_, ?_, ?_⟩ <;> decide),
    (C8_badge_class_pairs_single_category "nothing here").2.2.2
      (by refine ⟨?_, ?_, ?_⟩ <;> decide)⟩

/-- C8 counterexample: the mixed-language text `"中立 but bullish"` receives the
*neutral* badge `中立 ➡️` together with the *bullish* CSS class
`trend-bullish` — not one of the three fixed badge/class pairs, refuting the
claimed unconditional correspondence. -/
theorem C8_counterexample :
    _extract_trend_badge "中立 but bullish" = some "中立 ➡️" ∧
      _extract_trend_class "中立 but bullish" = some "trend-bullish" := by
  constructor <;> decide

/-! ## C9 — the fixed-grammar markdown converter -/

/-- C9 (corrected): at the line-processing stage of `_markdown_to_html`, every
stripped non-empty line that starts with none of the recognized list markers
(`"- "`, `"* "`, `"1. "`, `"2. "`, `"3. "` — and no other numbered marker)
becomes exactly the paragraph `<p>line</p>`, empty lines are dropped, and
marker lines alone open list blocks. The claim as stated is false: numbered
items from `"4. "` on are *not* recognized (they fall through to paragraphs),
and before the line stage the converter splices a spurious `"</h3>"` at the
first newline of the whole text even when no `"### "` heading is present, so a
first line of a multi-line input is not rendered as exactly its own paragraph
(see the counterexample). -/
theorem C9_unmarked_lines_become_paragraphs (lines : List String)
    (h : ∀ l ∈ lines, pyStartsWith (pyStrip l) "- " = false ∧
      isStarOrNumMarker (pyStrip l) = false) :
    processLines lines false =
      ((lines.map pyStrip).filter (fun l => l ≠ "")).map
        (fun l => "<p>" ++ l ++ "</p>") := by
  induction lines with
  | nil => rfl
  | cons x xs ih =>
    obtain ⟨h1, h2⟩ := h x (List.mem_cons_self x xs)
    have hrest := ih (fun l hl => h l (List.mem_cons_of_mem x hl))
    by_cases hx : pyStrip x = ""
    · simp only [hx] at h1 h2
      simp [processLines, h1, h2, hx, hrest]
    · simp [processLines, h1, h2, hx, hrest]

/-- C9 witness: three unmarked lines (one blank, one padded) become exactly two
paragraphs. -/
theorem C9_unmarked_lines_become_paragraphs_witness :
    processLines ["hello", "", "  world  "] false =
      (((["hello", "", "  world  "].map pyStrip).filter (fun l => l ≠ "")).map
        (fun l => "<p>" ++ l ++ "</p>")) :=
  C9_unmarked_lines_become_paragraphs ["hello", "", "  world  "] (by decide)

/-- C9 counterexample: on `"a\n4. b"` the converter yields
`"<p>a</h3></p>\n<p>4. b</p>"` — the numbered item `"4. b"` is *not* turned
into a list item (no `<li>` anywhere in the output), and the first line's
paragraph is `"a</h3>"`, not exactly the line `"a"`, because the first newline
is unconditionally replaced by `"</h3>\n"`. -/
theorem C9_counterexample :
    _markdown_to_html "a\n4. b" = "<p>a</h3></p>\n<p>4. b</p>" ∧
      pyContains (_markdown_to_html "a\n4. b") "<li>" = false := by
  constructor <;> decide

/-! ## C10 — a computed current price of zero is reported as absent -/

/-- C10 (corrected): whenever the *computed* current price is `0` — in
particular whenever the prior close is absent or non-positive, which forces
it to `0`, and on total failure of the info call — `get_stock_info` reports
`current_price = None` rather than the number `0`. The claim's stronger
headline "never reports a current_price of 0" is false: the truthiness guard
`round(current_price, 2) if current_price else None` tests the pre-rounding
value, so a tiny non-zero price rounds to a reported `0.0` (see the
counterexample). -/
theorem C10_zero_computed_price_reported_none (symbol : String) (info : TickerInfo)
    (hist : Except String (List (ℚ × ℚ))) (e : String) :
    ((if 0 < info.previousClose.getD 0 then
        info.currentPrice.getD (info.previousClose.getD 0) else 0) = 0 →
      (get_stock_info symbol (.ok info) hist).current_price = none) ∧
    (get_stock_info symbol (.error e) hist).current_price = none := by
  constructor
  · intro h
    by_cases hpc : 0 < info.previousClose.getD 0
    · rw [if_pos hpc] at h
      simp [get_stock_info, hpc, h]
    · simp [get_stock_info, hpc]
  · simp [get_stock_info]

/-- C10 witness: a missing prior close (defaulted to 0) forces the computed
price to 0 and the reported field to `None`; so does a failed info call. -/
theorem C10_zero_computed_price_reported_none_witness :
    ((if 0 < (TickerInfo.mk none none (some 3)).previousClose.getD 0 then
        (TickerInfo.mk none none (some 3)).currentPrice.getD
          ((TickerInfo.mk none none (some 3)).previousClose.getD 0) else 0) = 0 →
      (get_stock_info "AAA" (.ok (TickerInfo.mk none none (some 3)))
        (.error "down")).current_price = none) ∧
    (get_stock_info "AAA" (.error "boom") (.error "down")).current_price = none :=
  C10_zero_computed_price_reported_none "AAA" (TickerInfo.mk none none (some 3))
    (.error "down") "boom"

/-- C10 counterexample: with a positive prior close `5` and a live price of
`0.001`, `get_stock_info` reports `current_price = 0` (the value `0.001` is
truthy, and `round(0.001, 2)` is `0.0`) — so the function *can* report a
current price of exactly 0, refuting the claim's headline. -/
theorem C10_counterexample :
    (get_stock_info "AAA" (.ok ⟨none, some 5, some (1/1000)⟩)
        (.error "x")).current_price = some 0 := by
  norm_num [get_stock_info, pyRound2, roundHalfEven]

/-! ## C2 — news fetch fallback and totality -/

lemma fetch_news_lookup_preserve (fO : String → Except String (List FinnhubRaw))
    (yO : String → Except String (List YfRaw)) (days_back : ℤ) (key : Option String)
    (nowMinutes : ℤ) (k : String) :
    ∀ (xs : List String) (d : List (String × List NewsItem)),
      dlookup k d = some (fetch_news_for fO yO days_back key nowMinutes k) →
      dlookup k (xs.foldl (fun result sym =>
          dinsert (pyUpper (pyStrip sym))
            (fetch_news_for fO yO days_back key nowMinutes (pyUpper (pyStrip sym)))
            result) d) =
        some (fetch_news_for fO yO days_back key nowMinutes k) := by
  intro xs
  induction xs with
  | nil => intro d h; exact h
  | cons x xs ih =>
    intro d h
    simp only [List.foldl_cons]
    apply ih
    by_cases hk : pyUpper (pyStrip x) = k
    · rw [hk]
      exact dlookup_dinsert_self k _ d
    · rw [dlookup_dinsert_other k (pyUpper (pyStrip x)) _ d hk]
      exact h

lemma fetch_news_lookup_mem (fO : String → Except String (List FinnhubRaw))
    (yO : String → Except String (List YfRaw)) (days_back : ℤ) (key : Option String)
    (nowMinutes : ℤ) (sym : String) :
    ∀ (xs : List String) (d : List (String × List NewsItem)), sym ∈ xs →
      dlookup (pyUpper (pyStrip sym)) (xs.foldl (fun result s =>
          dinsert (pyUpper (pyStrip s))
            (fetch_news_for fO yO days_back key nowMinutes (pyUpper (pyStrip s)))
            result) d) =
        some (fetch_news_for fO yO days_back key nowMinutes (pyUpper (pyStrip sym))) := by
  intro xs
  induction xs with
  | nil => intro d h; exact absurd h (List.not_mem_nil sym)
  | cons x xs ih =>
    intro d hmem
    rcases List.mem_cons.mp hmem with rfl | hmem
    · simp only [List.foldl_cons]
      by_cases hxs : sym ∈ xs
      · exact ih _ hxs
      · exact fetch_news_lookup_preserve fO yO days_back key nowMinutes _ xs _
          (dlookup_dinsert_self _ _ d)
    · simp only [List.foldl_cons]
      exact ih _ hmem

/-- C2 (confirmed): `fetch_news` is a total function (both fetchers catch every
exception) and its returned map has, for each requested symbol, an entry under
the normalized (`strip().upper()`) symbol whose value is built from the primary
(Finnhub) result when that result is non-empty, otherwise from the secondary
(yfinance) result, passed through the recency filter; when both sources fail
(both oracles raise), the per-symbol value is the empty list — a per-symbol
news failure degrades that entry instead of stopping the run. -/
theorem C2_fetch_news_fallback_total (symbols : List String) (days_back : ℤ)
    (finnhub_api_key : Option String) (fO : String → Except String (List FinnhubRaw))
    (yO : String → Except String (List YfRaw)) (nowMinutes : ℤ) (sym : String)
    (hmem : sym ∈ symbols) :
    (dlookup (pyUpper (pyStrip sym))
        (fetch_news symbols days_back finnhub_api_key fO yO nowMinutes) =
      some (
        let nsym := pyUpper (pyStrip sym)
        let primary := match finnhub_api_key with
          | some key => if key ≠ "" then fetch_from_finnhub (fO nsym) 20 else []
          | none => []
        let chosen := if primary = [] then fetch_from_yfinance (yO nsym) 20 else primary
        if 0 < days_back then
          chosen.filter (fun n => _is_within_days (n.published_at.getD "") days_back nowMinutes)
        else chosen)) ∧
    (∀ ef ey, fO (pyUpper (pyStrip sym)) = .error ef → yO (pyUpper (pyStrip sym)) = .error ey →
      fetch_news_for fO yO days_back finnhub_api_key nowMinutes (pyUpper (pyStrip sym)) = []) := by
  constructor
  · exact fetch_news_lookup_mem fO yO days_back finnhub_api_key nowMinutes sym symbols []
      hmem
  · intro ef ey hf hy
    rcases finnhub_api_key with _ | key
    · simp [fetch_news_for, hf, hy, fetch_from_finnhub, fetch_from_yfinance]
    · by_cases hkey : key ≠ ""
      · simp [fetch_news_for, hf, hy, hkey, fetch_from_finnhub, fetch_from_yfinance]
      · simp [fetch_news_for, hf, hy, hkey, fetch_from_finnhub, fetch_from_yfinance]

/-- C2 witness: one padded lowercase symbol, a failing Finnhub oracle and a
one-item yfinance response; the map holds the secondary result under `"AMD"`,
and with both oracles failing the entry value is empty. -/
theorem C2_fetch_news_fallback_total_witness :
    (dlookup (pyUpper (pyStrip " amd "))
        (fetch_news [" amd "] 0 (some "fk")
          (fun _ => .error "finnhub down")
          (fun _ => .ok [⟨some "T", some "P", some 0, some "http"⟩]) 28514700) =
      some (
        let nsym := pyUpper (pyStrip " amd ")
        let primary := match some "fk" with
          | some key =>
            if key ≠ "" then fetch_from_finnhub ((fun _ => .error "finnhub down") nsym) 20
            else []
          | none => []
        let chosen := if primary = [] then
            fetch_from_yfinance ((fun _ =>
              .ok [⟨some "T", some "P", some 0, some "http"⟩]) nsym) 20
          else primary
        if 0 < (0 : ℤ) then
          chosen.filter (fun n => _is_within_days (n.published_at.getD "") 0 28514700)
        else chosen)) ∧
    (∀ ef ey, (Except.error "finnhub down" : Except String (List FinnhubRaw)) =
        Except.error ef →
      (Except.ok [⟨some "T", some "P", some 0, some "http"⟩] : Except String (List YfRaw)) =
        Except.error ey →
      fetch_news_for (fun _ => .error "finnhub down")
        (fun _ => .ok [⟨some "T", some "P", some 0, some "http"⟩]) 0 (some "fk") 28514700
        (pyUpper (pyStrip " amd ")) = []) :=
  C2_fetch_news_fallback_total [" amd "] 0 (some "fk") (fun _ => .error "finnhub down")
    (fun _ => .ok [⟨some "T", some "P", some 0, some "http"⟩]) 28514700 " amd "
    (by decide)

/-! ## C3 — authentication failures -/

lemma tryModels_auth401 {msg : String}
    (h : pyContains msg "401" = true ∨ pyContains msg "Unauthorized" = true)
    (ty prompt : String) (i : Nat) (m : String) (ms : List String) (me : Option PyErr) :
    tryModels ty (fun _ _ _ => .raise (.authenticationErr msg)) prompt i (m :: ms) me =
      .raised (.otherErr "TypeError" ty) 1 := by
  rcases h with h | h <;> simp [tryModels, isAPIError, PyErr.str, h]

lemma models_to_try_ne_nil (base_url : Option String) : models_to_try base_url ≠ [] := by
  rcases base_url with _ | u
  · simp [models_to_try]
  · rw [models_to_try]
    split <;> simp

/-- C3 (corrected): when the client raises an authentication error whose
message carries the `401`/`Unauthorized` marker (as real anthropic
`AuthenticationError`s do), `summarize_stock_news` makes exactly one call —
no model fallback, no retry, no backoff sleep — but it does *not* return an
authentication-worded card: the short-circuit `raise AuthenticationError(str(e))`
(ai_summarizer.py:205) miscalls the SDK constructor (the required keyword-only
`response`/`body` arguments are missing), so a `TypeError` reaches the
catch-all `except Exception` handler, which breaks out of the retry loop and
returns the generic `API 调用失败: TypeError: …` failure card — no
authentication wording in either language. The claim fails in the other
branch too: an authentication error *without* those markers is treated as
model-unavailable and triggers one call per model in the priority list (see
the counterexample, 3 calls), and that card's auth wording stays Chinese
(`认证失败`) in the English configuration. The hypothesis `hty` records that
no CPython version's missing-argument `TypeError` message contains `401`. -/
theorem C3_auth_401_single_call (symbol msg tyMsg : String) (news : NewsItem)
    (rest : List NewsItem) (date : Option String) (todayStr api_key : String)
    (base_url : Option String) (language : String) (k : Nat) (retry_delay : ℚ)
    (include_prediction : Bool) (hkey : api_key ≠ "")
    (h401 : pyContains msg "401" = true ∨ pyContains msg "Unauthorized" = true)
    (hty : pyContains tyMsg "401" = false) :
    summarize_stock_news tyMsg (fun _ _ _ => .raise (.authenticationErr msg)) symbol
        (news :: rest) date todayStr api_key base_url language (k + 1) retry_delay
        include_prediction =
      ⟨_format_error symbol symbol language
          ("API 调用失败: TypeError: " ++ pyTake 100 tyMsg), 1, []⟩ := by
  obtain ⟨m, ms, hm⟩ : ∃ m ms, models_to_try base_url = m :: ms := by
    rcases hx : models_to_try base_url with _ | ⟨m, ms⟩
    · exact absurd hx (models_to_try_ne_nil base_url)
    · exact ⟨m, ms, rfl⟩
  have hfin : finalErrorMsg (some (.otherErr "TypeError" tyMsg)) =
      "API 调用失败: TypeError: " ++ pyTake 100 tyMsg := rfl
  simp [summarize_stock_news, hkey, summarizeLoop, hm, tryModels_auth401 h401, handleExc,
    hty, hfin, _get_company_name]

/-- C3 witness: a realistic `Error code: 401` authentication failure produces
exactly one call, no sleep, and the generic `TypeError` failure card (the
witness instantiates the `TypeError` message with CPython's missing-argument
wording, unquoted). -/
theorem C3_auth_401_single_call_witness :
    summarize_stock_news
        "APIStatusError.__init__() missing 2 required keyword-only arguments: response and body"
        (fun _ _ _ => .raise (.authenticationErr "Error code: 401 - invalid x-api-key"))
        "AMD" [⟨some "t", some "s", some "2024-01-15 10:30", some "", some "u"⟩]
        (some "2024-01-15") "2024-01-16" "key" none "zh" 3 3 false =
      ⟨_format_error "AMD" "AMD" "zh"
          ("API 调用失败: TypeError: " ++ pyTake 100
            "APIStatusError.__init__() missing 2 required keyword-only arguments: response and body"),
        1, []⟩ :=
  C3_auth_401_single_call "AMD" "Error code: 401 - invalid x-api-key"
    "APIStatusError.__init__() missing 2 required keyword-only arguments: response and body"
    ⟨some "t", some "s", some "2024-01-15 10:30", some "", some "u"⟩ []
    (some "2024-01-15") "2024-01-16" "key" none "zh" 2 3 false (by decide)
    (Or.inl (by decide)) (by decide)

/-- C3 counterexample: an authentication error whose message lacks the
`401`/`Unauthorized` markers is caught by the inner `except APIError` handler
and treated as model-unavailable — the generator issues *three* calls (one per
model of the official priority list), not exactly one; and with
`language = "en"` the returned card does not contain the word
"authentication" (its auth wording is the fixed Chinese `认证失败`). -/
theorem C3_counterexample :
    summarize_stock_news
        "APIStatusError.__init__() missing 2 required keyword-only arguments: response and body"
        (fun _ _ _ => .raise (.authenticationErr "invalid api key")) "AMD"
        [⟨some "t", some "s", some "2024-01-15 10:30", some "", some "u"⟩]
        (some "2024-01-15") "2024-01-16" "k" none "en" 3 3 false =
      ⟨"## AMD (AMD)\n\n⚠️ Summary generation failed\n\nError: 认证失败: invalid api key\n\nPlease try again later.",
        3, []⟩ ∧
    pyContains (pyLower
        "## AMD (AMD)\n\n⚠️ Summary generation failed\n\nError: 认证失败: invalid api key\n\nPlease try again later.")
      "authentication" = false := by
  constructor <;> decide

/-! ## C4 — rate-limit retry and backoff schedule -/

/-- C4 (corrected): a rate-limit error raised by a model call is caught by the
inner `except APIError` handler, so within one attempt the generator first
falls through the *whole model priority list* (three calls under the official
list) rather than retrying the same model; only when every model of an attempt
failed is the re-raised `RateLimitError` seen by the outer handler, which
waits `retry_delay * 2 ** attempt` and restarts the list. With a stub that
rate-limits every call of the first two attempts and succeeds on the first
call of the third, the result is the titled successful text after 7 calls,
and the sleep schedule is exactly `base·2⁰, base·2¹` (the two backoff waits)
followed by the fixed pacing delay `base` after success; the attempt budget is
the fixed `max_retries = 3`. The claim's "retries the same model (no model
fallback)" is refuted by the counterexample, where the call after a rate-limit
error goes to the *next* model with no backoff wait at all. -/
theorem C4_rate_limit_backoff_schedule (authCtorTypeError symbol text : String) (base : ℚ) :
    summarize_stock_news authCtorTypeError
        (fun i _ _ => if i < 6 then .raise (.rateLimitErr "Error code: 429 - rate limited")
          else .ok text)
        symbol [⟨some "n", some "s", some "d", some "", some "u"⟩] (some "2024-01-15")
        "2024-01-16" "k" none "zh" 3 base false =
      ⟨"## " ++ symbol ++ "（" ++ symbol ++ "）" ++ "\n\n" ++ text, 7,
        [base * 2 ^ 0, base * 2 ^ 1, base]⟩ :=
  rfl

/-- C4 counterexample: a stub that rate-limits the first call and answers the
second succeeds *within the same attempt* on a different model
(`claude-sonnet-4-20250513`, the second of the list) after only 2 calls and
with no backoff wait (the single recorded sleep is the post-success pacing
delay) — the claim predicted a `base × 1` wait and a retry of the same
model. -/
theorem C4_counterexample :
    summarize_stock_news
        "APIStatusError.__init__() missing 2 required keyword-only arguments: response and body"
        (fun i m _ => if i = 0 then .raise (.rateLimitErr "Error code: 429 - rate limited")
          else .ok ("reply from " ++ m))
        "AAA" [⟨some "n", some "s", some "d", some "", some "u"⟩] (some "2024-01-15")
        "2024-01-16" "k" none "zh" 3 3 false =
      ⟨"## AAA（AAA）\n\nreply from claude-sonnet-4-20250513", 2, [3]⟩ :=
  rfl
